import Mathlib

/-!
Shallow embedding of `src/my-project/src/Components/Form.tsx`, the single
component of the repository: a JSON-schema-driven form renderer with
per-field validation and a simulated submission.

Conventions of the embedding:
* TypeScript interfaces (`FormOption`, `FormValidation`, `FormField`,
  `FormSchema`) become Lean structures with the same member names;
  optional members (`required?`, `validation?`, ...) become `Option`s.
* JavaScript truthiness on those optional members is spelled out where the
  code relies on it: `field.required && ...` is truthy only for `some true`,
  `field.validation.pattern && ...` only for a present non-empty string,
  `field.validation.minLength && ...` only for a present non-zero number.
* The `JSON.parse` builtin and the host regular-expression engine
  (`new RegExp(p).test(v)`) are not code of this repository; they enter the
  embedding as explicit function parameters (`jsonParse`, `test`).  Parsed
  JSON documents are modelled by the inductive `Json` below.
* React state (`useState` cells) is collected into `ComponentState`; each
  event handler of the component becomes a pure state transformer.  A batch
  of `setX` calls executed by one handler is modelled by the record update
  the batch amounts to: a functional update `setFormErrors(prev => ...)`
  composes with the previous value, a direct `setFormErrors(m)` replaces it.
* JavaScript string `.length` counts UTF-16 code units while Lean's
  `String.length` counts code points; the two agree on all inputs considered
  here and the distinction is not load-bearing for any claim.
-/

/-- The `type` union of the TS `FormField` interface:
`'text' | 'number' | 'email' | 'select' | 'textarea' | 'radio'`. -/
inductive FieldType where
  | text
  | number
  | email
  | select
  | textarea
  | radio
deriving DecidableEq, Repr

/-- TS interface `FormOption { value: string; label: string }`. -/
structure FormOption where
  value : String
  label : String
deriving DecidableEq, Repr

/-- TS interface `FormValidation` with all-optional members
`pattern?`, `message?`, `min?`, `max?`, `minLength?`, `maxLength?`. -/
structure FormValidation where
  pattern : Option String
  message : Option String
  min : Option Int
  max : Option Int
  minLength : Option Nat
  maxLength : Option Nat
deriving DecidableEq, Repr

/-- TS interface `FormField`. -/
structure FormField where
  id : String
  type : FieldType
  label : String
  required : Option Bool
  placeholder : Option String
  options : Option (List FormOption)
  validation : Option FormValidation
deriving DecidableEq, Repr

/-- TS interface `FormSchema { formTitle, formDescription?, fields }`. -/
structure FormSchema where
  formTitle : String
  formDescription : Option String
  fields : List FormField
deriving DecidableEq, Repr

/-- JSON documents as produced by the `JSON.parse` builtin.  Numbers are
modelled as integers; no claim depends on fractional numeric literals. -/
inductive Json where
  | null
  | bool (b : Bool)
  | num (n : Int)
  | str (s : String)
  | arr (elems : List Json)
  | obj (members : List (String × Json))
deriving Repr

/-- JavaScript truthiness of a JSON value:
`null`, `false`, `0` and `""` are falsy, everything else truthy. -/
def Json.truthy : Json → Bool
  | .null => false
  | .bool b => b
  | .num n => n != 0
  | .str s => s != ""
  | .arr _ => true
  | .obj _ => true

/-- `Array.isArray`. -/
def Json.isArr : Json → Bool
  | .arr _ => true
  | _ => false

def Json.isNull : Json → Bool
  | .null => true
  | _ => false

/-- Property access `j.k` on a parsed JSON value, `none` standing for
`undefined`.  Non-objects have no own properties; for duplicate keys
`JSON.parse` keeps the last binding, hence the lookup from the back. -/
def Json.getMember : Json → String → Option Json
  | .obj members, k => (members.reverse.find? (fun kv => kv.1 == k)).map (fun kv => kv.2)
  | _, _ => none

/-- Truthiness of a possibly-`undefined` property access. -/
def truthyOpt : Option Json → Bool
  | none => false
  | some j => j.truthy

/-- `Array.isArray` applied to a possibly-`undefined` property access. -/
def isArrOpt : Option Json → Bool
  | none => false
  | some j => j.isArr

/-! ## String-keyed records

`formData` and `formErrors` are JS objects used as string→string records.
`setKey` models the spread update `{ ...prev, [k]: v }` (the binding for `k`
is replaced in place, or appended if absent, other bindings untouched);
`getKey` models property lookup. -/

def setKey (m : List (String × String)) (k v : String) : List (String × String) :=
  if m.any (fun kv => kv.1 == k) then
    m.map (fun kv => if kv.1 == k then (k, v) else kv)
  else
    m ++ [(k, v)]

def getKey (m : List (String × String)) (k : String) : Option String :=
  (m.find? (fun kv => kv.1 == k)).map (fun kv => kv.2)

/-! ## The field validator (`validateField`, Form.tsx lines 83–107)

The error string is computed by four sequential checks writing to one
mutable slot `error` (initially `''`).  Each check's guard is factored out
below, with JS truthiness made explicit. -/

/-- Guard of the first check: `field.required && !value`. -/
def requiredEmpty (field : FormField) (value : String) : Bool :=
  field.required.getD false && value == ""

/-- Guard of the pattern check:
`field.validation.pattern && !new RegExp(field.validation.pattern).test(value)`.
An absent or empty pattern string is falsy and skips the check.
`test pat v` stands for `new RegExp(pat).test(v)`. -/
def patternFires (test : String → String → Bool) (v : FormValidation) (value : String) : Bool :=
  match v.pattern with
  | some p => p != "" && !(test p value)
  | none => false

/-- Error assigned by the pattern check:
`field.validation.message || 'Invalid format'` (an empty custom message is
falsy and falls back to the default). -/
def patternMsg (v : FormValidation) : String :=
  match v.message with
  | some m => if m == "" then "Invalid format" else m
  | none => "Invalid format"

/-- Guard of the minLength check:
`field.validation.minLength && value.length < field.validation.minLength`
(`minLength: 0` is falsy and skips the check). -/
def minLengthFires (v : FormValidation) (value : String) : Bool :=
  match v.minLength with
  | some n => n != 0 && value.length < n
  | none => false

/-- Guard of the maxLength check:
`field.validation.maxLength && value.length > field.validation.maxLength`
(`maxLength: 0` is falsy and skips the check). -/
def maxLengthFires (v : FormValidation) (value : String) : Bool :=
  match v.maxLength with
  | some n => n != 0 && value.length > n
  | none => false

/-- `` `Minimum length is ${n}` ``. -/
def minLengthMsg (n : Nat) : String := "Minimum length is " ++ toString n

/-- `` `Maximum length is ${n}` ``. -/
def maxLengthMsg (n : Nat) : String := "Maximum length is " ++ toString n

/-- The error string `validateField` computes for a field and a candidate
value (Form.tsx lines 87–101): `required` short-circuits via `else if`;
inside the `else` branch the pattern, minLength and maxLength checks run
sequentially, each overwriting the shared `error` slot when its guard
fires, so the last firing check wins. -/
def validateFieldError (test : String → String → Bool) (field : FormField)
    (value : String) : String :=
  if requiredEmpty field value then "This field is required"
  else
    match field.validation with
    | none => ""
    | some v =>
      let error := ""
      let error := if patternFires test v value then patternMsg v else error
      let error := if minLengthFires v value then minLengthMsg (v.minLength.getD 0) else error
      let error := if maxLengthFires v value then maxLengthMsg (v.maxLength.getD 0) else error
      error

/-! ## Component state and event handlers -/

/-- The seven `useState` cells of the component. -/
structure ComponentState where
  jsonInput : String
  formSchema : Option FormSchema
  jsonError : Option String
  formData : List (String × String)
  formErrors : List (String × String)
  isSubmitted : Bool
  isSubmitting : Bool
deriving DecidableEq, Repr

/-- The guard `!jsonInput.trim()` (Form.tsx line 59): the editor text is
blank exactly when every character is whitespace — trimming the
leading/trailing whitespace then leaves the empty string, which is falsy. -/
def isBlank (input : String) : Bool :=
  input.data.all Char.isWhitespace

/-- The error message thrown when the parsed structure fails the shape
check (Form.tsx line 67). -/
def invalidSchemaMsg : String :=
  "Invalid schema format. Must include \"formTitle\" and \"fields\" array."

/-- Outcome of the schema-parsing `useEffect` body (Form.tsx lines 57–76) as
a pair (new `formSchema` at the JSON level, new `jsonError`).

* blank input (`!jsonInput.trim()`) clears both;
* a `JSON.parse` throw is caught and its `Error.message` surfaced
  (`jsonParse` returning `Except.error msg` models the throw);
* on `null` the property access `parsed.formTitle` throws a `TypeError`
  whose engine-dependent message is the parameter `nullMsg`;
* `!parsed.formTitle || !Array.isArray(parsed.fields)` throws the fixed
  shape error, caught by the same `catch`;
* otherwise the parsed value is stored and the error cleared. -/
def parseOutcome (jsonParse : String → Except String Json) (nullMsg : String)
    (input : String) : Option Json × Option String :=
  if isBlank input then (none, none)
  else
    match jsonParse input with
    | Except.error msg => (none, some msg)
    | Except.ok parsed =>
      if parsed.isNull then (none, some nullMsg)
      else if truthyOpt (parsed.getMember "formTitle")
          && isArrOpt (parsed.getMember "fields") then
        (some parsed, none)
      else (none, some invalidSchemaMsg)

/-- The schema-parsing `useEffect` as a state transformer.  It recomputes
`formSchema` and `jsonError` from the current `jsonInput` via
`parseOutcome`; the stored schema is the parsed JSON value carried through
the TS-level `as FormSchema` cast, modelled by the parameter `cast`. -/
def runParseEffect (jsonParse : String → Except String Json)
    (cast : Json → FormSchema) (nullMsg : String)
    (st : ComponentState) : ComponentState :=
  match parseOutcome jsonParse nullMsg st.jsonInput with
  | (some j, e) => { st with formSchema := some (cast j), jsonError := e }
  | (none, e) => { st with formSchema := none, jsonError := e }

/-- The update `validateField(id, value)` performs on the `formErrors`
record: look the field up by id in the current schema
(`formSchema?.fields.find(f => f.id === id)`), return unchanged if there is
none, else write the computed error string under `id`. -/
def validateFieldUpdate (test : String → String → Bool)
    (schema : Option FormSchema) (errs : List (String × String))
    (id value : String) : List (String × String) :=
  match schema with
  | none => errs
  | some s =>
    match s.fields.find? (fun f => f.id == id) with
    | none => errs
    | some f => setKey errs id (validateFieldError test f value)

/-- `validateField` as a state transformer (its only effect is on
`formErrors`; when the lookup fails it returns before any `setState`). -/
def validateFieldEffect (test : String → String → Bool) (id value : String)
    (st : ComponentState) : ComponentState :=
  { st with formErrors := validateFieldUpdate test st.formSchema st.formErrors id value }

/-- Observable outcome of one `handleSubmit` run: the final component state,
whether the simulated fixed-duration wait (`await ... setTimeout`) ran, and
the payload of the diagnostic `console.log` if it fired. -/
structure SubmitOutcome where
  state : ComponentState
  waited : Bool
  logged : Option (List (String × String))
deriving DecidableEq, Repr

/-- `handleSubmit` (Form.tsx lines 109–131) as a state transformer.

The `forEach` over `formSchema?.fields` does two independent things per
field: it calls `validateField(field.id, value)` (queueing a functional
`setFormErrors` update) and it records `'This field is required'` in the
local `newErrors` object when `field.required && !value`; `value` is
`formData[field.id] || ''`.  The run is gated only on
`Object.keys(newErrors).length === 0`:
* gate passes → the wait runs, `formData` is logged, `isSubmitted`
  becomes true, and the queued per-field updates land in `formErrors`;
* gate fails → `setFormErrors(newErrors)` replaces the record wholesale
  (overriding the queued functional updates), no wait, no log,
  `isSubmitted` untouched.
`setIsSubmitting(true)`/`(false)` bracket the run, so the final state has
`isSubmitting := false` either way. -/
def handleSubmit (test : String → String → Bool) (st : ComponentState) :
    SubmitOutcome :=
  let step := fun (acc : List (String × String) × List (String × String)) (field : FormField) =>
    let value := (getKey st.formData field.id).getD ""
    let errs := validateFieldUpdate test st.formSchema acc.2 field.id value
    let newErrors :=
      if field.required.getD false && value == "" then
        setKey acc.1 field.id "This field is required"
      else acc.1
    (newErrors, errs)
  let acc :=
    match st.formSchema with
    | none => (([] : List (String × String)), st.formErrors)
    | some s => s.fields.foldl step ([], st.formErrors)
  if acc.1.isEmpty then
    { state := { st with formErrors := acc.2, isSubmitted := true, isSubmitting := false },
      waited := true, logged := some st.formData }
  else
    { state := { st with formErrors := acc.1, isSubmitting := false },
      waited := false, logged := none }

/-! ## Concrete instances used by witnesses -/

/-- Modelled from the spec: the host regular-expression engine
(`new RegExp(p).test(s)`), which is a platform builtin and not code of this
repository, instantiated for the one concrete pattern `^[0-9]{5}$` named in
§8 — that anchored pattern matches exactly the strings of five ASCII
digits.  Other patterns are irrelevant to the instances below and are
mapped to `true`. -/
def jsRegexFiveDigits (p : String) (s : String) : Bool :=
  if p == "^[0-9]{5}$" then decide (s.length = 5) && s.toList.all (fun c => c.isDigit)
  else true

/-- An optional text field carrying `minLength 3` and no other rule
(§8's minLength scenario). -/
def minLenField : FormField :=
  { id := "f", type := FieldType.text, label := "Name",
    required := none, placeholder := none, options := none,
    validation := some { pattern := none, message := none,
                         min := none, max := none,
                         minLength := some 3, maxLength := none } }

/-- A schema whose single field is `minLenField`. -/
def minLenSchema : FormSchema :=
  { formTitle := "T", formDescription := none, fields := [minLenField] }

/-- The validation object of §8's pattern scenario: pattern `^[0-9]{5}$`,
no custom message, no other rule. -/
def zipValidation : FormValidation :=
  { pattern := some "^[0-9]{5}$", message := none, min := none, max := none,
    minLength := none, maxLength := none }

/-- An optional text field carrying `zipValidation`. -/
def zipField : FormField :=
  { id := "zip", type := FieldType.text, label := "Zip",
    required := none, placeholder := none, options := none,
    validation := some zipValidation }

/-- A component state with populated value and error mappings keyed by an
old schema's field id, about to receive a new schema from its editor text. -/
def swapState : ComponentState :=
  { jsonInput := "x", formSchema := none, jsonError := none,
    formData := [("old", "v")], formErrors := [("old", "e")],
    isSubmitted := true, isSubmitting := false }

/-- A parsed JSON document with a truthy `formTitle` and an array `fields`
member. -/
def titledDoc : Json :=
  Json.obj [("formTitle", Json.str "T"), ("fields", Json.arr [])]

/-- Component state holding `minLenSchema` with the too-short value `"ab"`
entered for its field. -/
def minLenState : ComponentState :=
  { jsonInput := "", formSchema := some minLenSchema, jsonError := none,
    formData := [("f", "ab")], formErrors := [],
    isSubmitted := false, isSubmitting := false }

/-! ## Helper lemmas -/

/-- Writing a binding with `setKey` makes it the one `getKey` finds. -/
theorem getKey_setKey_self (m : List (String × String)) (k v : String) :
    getKey (setKey m k v) k = some v := by
  unfold getKey setKey
  by_cases h : m.any (fun kv => kv.1 == k)
  · rw [if_pos h, List.find?_map]
    have hpf : ((fun kv : String × String => kv.1 == k) ∘
        (fun kv : String × String => if kv.1 == k then (k, v) else kv))
        = fun kv : String × String => kv.1 == k := by
      funext kv
      by_cases hk : kv.1 = k <;> simp [hk]
    rw [hpf]
    obtain ⟨x, hx⟩ : ∃ x, m.find? (fun kv => kv.1 == k) = some x := by
      rw [← Option.isSome_iff_exists, List.find?_isSome]
      simpa using List.any_eq_true.mp h
    have hxk : x.1 = k := by simpa using List.find?_some hx
    rw [hx]
    simp [hxk]
  · rw [if_neg h, List.find?_append]
    have hnone : m.find? (fun kv => kv.1 == k) = none := by
      rw [List.find?_eq_none]
      intro x hx hpx
      exact h (List.any_eq_true.mpr ⟨x, hx, hpx⟩)
    rw [hnone]
    simp [List.find?]

/-- Normal form of the validator's error when the required check does not
fire and a validation object is present: the sequentially overwritten slot
equals the reverse-priority conditional. -/
theorem validateFieldError_eq (test : String → String → Bool) (field : FormField)
    (value : String) (v : FormValidation) (hv : field.validation = some v)
    (hreq : requiredEmpty field value = false) :
    validateFieldError test field value =
      (if maxLengthFires v value then maxLengthMsg (v.maxLength.getD 0)
       else if minLengthFires v value then minLengthMsg (v.minLength.getD 0)
       else if patternFires test v value then patternMsg v
       else "") := by
  simp only [validateFieldError, hreq, Bool.false_eq_true, if_false, hv]

/-! ## Claim theorems -/

/-- C4: for every field with `required` set to true and an empty candidate
value, the validator yields exactly "This field is required", regardless of
any pattern, minLength or maxLength rules declared on the field. -/
theorem required_empty_yields_required_error (test : String → String → Bool)
    (field : FormField) (value : String)
    (hreq : field.required = some true) (hval : value = "") :
    validateFieldError test field value = "This field is required" := by
  have h : requiredEmpty field value = true := by
    simp [requiredEmpty, hreq, hval]
  simp [validateFieldError, h]

/-- Witness for C4: a required field that also declares a pattern, a custom
message and both length bounds still reports the required error on "". -/
theorem required_empty_yields_required_error_witness :
    validateFieldError (fun _ _ => false)
      { id := "f", type := FieldType.text, label := "F", required := some true,
        placeholder := none, options := none,
        validation := some { pattern := some "^a$", message := some "custom",
                             min := some 0, max := some 9,
                             minLength := some 3, maxLength := some 5 } }
      "" = "This field is required" :=
  required_empty_yields_required_error (fun _ _ => false) _ "" rfl rfl

/-- C3: when the required check does not fire and more than one of the
pattern, minLength and maxLength checks is violated, the sequentially
overwritten error slot holds the message of the last violated rule in the
order required → pattern → minLength → maxLength. -/
theorem last_violated_rule_wins (test : String → String → Bool)
    (field : FormField) (value : String) (v : FormValidation)
    (hv : field.validation = some v)
    (hreq : requiredEmpty field value = false)
    (htwo : 2 ≤ (cond (patternFires test v value) 1 0)
        + (cond (minLengthFires v value) 1 0)
        + (cond (maxLengthFires v value) 1 0)) :
    validateFieldError test field value =
      (if maxLengthFires v value then maxLengthMsg (v.maxLength.getD 0)
       else if minLengthFires v value then minLengthMsg (v.minLength.getD 0)
       else patternMsg v) := by
  rw [validateFieldError_eq test field value v hv hreq]
  by_cases hmax : maxLengthFires v value = true
  · simp [hmax]
  · have hmax' : maxLengthFires v value = false := by simpa using hmax
    by_cases hmin : minLengthFires v value = true
    · simp [hmax', hmin]
    · have hmin' : minLengthFires v value = false := by simpa using hmin
      have hpat : patternFires test v value = true := by
        by_contra hp
        have hp' : patternFires test v value = false := by simpa using hp
        rw [hmax', hmin', hp'] at htwo
        simp at htwo
      simp [hmax', hmin', hpat]

/-- Witness for C3: a field violating both its pattern and its minLength 3
on the value "ab" reports the minLength message, not the pattern message. -/
theorem last_violated_rule_wins_witness :
    validateFieldError (fun _ _ => false)
      { id := "f", type := FieldType.text, label := "F", required := none,
        placeholder := none, options := none,
        validation := some { pattern := some "^[0-9]+$", message := none,
                             min := none, max := none,
                             minLength := some 3, maxLength := none } }
      "ab" = "Minimum length is 3" := by
  have h := last_violated_rule_wins (fun _ _ => false)
      { id := "f", type := FieldType.text, label := "F", required := none,
        placeholder := none, options := none,
        validation := some { pattern := some "^[0-9]+$", message := none,
                             min := none, max := none,
                             minLength := some 3, maxLength := none } }
      "ab"
      { pattern := some "^[0-9]+$", message := none, min := none, max := none,
        minLength := some 3, maxLength := none }
      rfl rfl (by decide)
  simpa using h

/-- C5: the validator never reads `validation.min` or `validation.max` —
replacing those two members by any other values (including adding or
removing them) leaves the computed error unchanged, so no error is ever
produced on their account. -/
theorem numeric_min_max_never_enforced (test : String → String → Bool)
    (field : FormField) (value : String) (m1 M1 m2 M2 : Option Int) :
    validateFieldError test { field with validation := field.validation.map (fun v => { v with min := m1, max := M1 }) } value
      = validateFieldError test { field with validation := field.validation.map (fun v => { v with min := m2, max := M2 }) } value := by
  obtain ⟨i, ty, lb, rq, pl, op, vl⟩ := field
  cases vl with
  | none => rfl
  | some v => rfl

/-- C7: if the field's pattern is set (non-empty), the value does not match
it, and neither the required-empty check nor a length check fires, the
validator returns the custom `validation.message` when one is provided
(non-empty) and "Invalid format" when none is provided. -/
theorem pattern_mismatch_reports_pattern_error (test : String → String → Bool)
    (field : FormField) (value : String) (v : FormValidation) (p : String)
    (hv : field.validation = some v) (hp : v.pattern = some p) (hpne : p ≠ "")
    (htest : test p value = false)
    (hreq : requiredEmpty field value = false)
    (hmin : minLengthFires v value = false)
    (hmax : maxLengthFires v value = false) :
    (∀ m, v.message = some m → m ≠ "" → validateFieldError test field value = m) ∧
      (v.message = none → validateFieldError test field value = "Invalid format") := by
  have hpat : patternFires test v value = true := by
    simp [patternFires, hp, htest, hpne]
  have hval : validateFieldError test field value = patternMsg v := by
    rw [validateFieldError_eq test field value v hv hreq]
    simp [hmax, hmin, hpat]
  constructor
  · intro m hm hmne
    rw [hval]
    simp [patternMsg, hm, hmne]
  · intro hm
    rw [hval]
    simp [patternMsg, hm]

/-- Witness for C7, §8's instance: pattern `^[0-9]{5}$` (under the modelled
host regex engine), value "1234", no custom message — the validator yields
"Invalid format". -/
theorem pattern_mismatch_reports_pattern_error_witness :
    validateFieldError jsRegexFiveDigits zipField "1234" = "Invalid format" :=
  (pattern_mismatch_reports_pattern_error jsRegexFiveDigits zipField "1234"
      zipValidation "^[0-9]{5}$" rfl rfl (by decide) (by decide) rfl rfl rfl).2 rfl

/-- C8: when a field of the current schema passes all of its declared
checks (required-empty does not apply, the pattern matches if set, the
length bounds hold if set), running the validator writes the empty error
string under that field's id, clearing any previously recorded error. -/
theorem valid_value_clears_error (test : String → String → Bool)
    (st : ComponentState) (schema : FormSchema) (field : FormField) (value : String)
    (hs : st.formSchema = some schema)
    (hf : schema.fields.find? (fun f => f.id == field.id) = some field)
    (hreq : requiredEmpty field value = false)
    (hrules : ∀ v, field.validation = some v →
      patternFires test v value = false ∧ minLengthFires v value = false ∧
        maxLengthFires v value = false) :
    getKey (validateFieldEffect test field.id value st).formErrors field.id = some "" := by
  have herr : validateFieldError test field value = "" := by
    cases hvv : field.validation with
    | none => simp [validateFieldError, hreq, hvv]
    | some v =>
      obtain ⟨h1, h2, h3⟩ := hrules v hvv
      rw [validateFieldError_eq test field value v hvv hreq]
      simp [h1, h2, h3]
  have hupd : validateFieldUpdate test st.formSchema st.formErrors field.id value
      = setKey st.formErrors field.id "" := by
    rw [hs]
    simp [validateFieldUpdate, hf, herr]
  unfold validateFieldEffect
  rw [hupd]
  exact getKey_setKey_self st.formErrors field.id ""

/-- Witness for C8: the minLength-3 field accepts "abc", and the error slot
for its id holds the empty string afterwards. -/
theorem valid_value_clears_error_witness :
    getKey (validateFieldEffect (fun _ _ => true) "f" "abc" minLenState).formErrors "f"
      = some "" :=
  valid_value_clears_error (fun _ _ => true) minLenState minLenSchema minLenField "abc"
    rfl rfl rfl
    (fun v hv => by
      injection hv with h
      subst h
      exact ⟨by decide, by decide, by decide⟩)

/-- C10: calling the validator with an id that matches no field of the
current schema — in particular when no schema is present — leaves the whole
component state unchanged. -/
theorem validate_unknown_id_noop (test : String → String → Bool)
    (id value : String) (st : ComponentState)
    (h : st.formSchema.all (fun s => s.fields.all (fun f => f.id != id)) = true) :
    validateFieldEffect test id value st = st := by
  have hupd : validateFieldUpdate test st.formSchema st.formErrors id value
      = st.formErrors := by
    cases hs : st.formSchema with
    | none => simp [validateFieldUpdate]
    | some s =>
      rw [hs] at h
      have hall : ∀ f ∈ s.fields, (f.id != id) = true := by
        have h' : s.fields.all (fun f => f.id != id) = true := by
          simpa [Option.all] using h
        exact List.all_eq_true.mp h'
      have hfind : s.fields.find? (fun f => f.id == id) = none := by
        rw [List.find?_eq_none]
        intro f hf
        have := hall f hf
        simp only [bne, Bool.not_eq_true'] at this
        simp [this]
      simp [validateFieldUpdate, hfind]
  unfold validateFieldEffect
  rw [hupd]

/-- Witness for C10: validating id "zz", which no field of `minLenSchema`
carries, leaves the state untouched. -/
theorem validate_unknown_id_noop_witness :
    validateFieldEffect (fun _ _ => true) "zz" "x" minLenState = minLenState :=
  validate_unknown_id_noop (fun _ _ => true) "zz" "x" minLenState (by decide)

/-- C6: blank (empty or whitespace-only) editor text leaves both the schema
and the schema error absent, and non-blank text on which `JSON.parse`
throws leaves the schema absent with the thrown message as the error. -/
theorem blank_or_unparseable_text (jsonParse : String → Except String Json)
    (nullMsg input msg : String) :
    (isBlank input = true → parseOutcome jsonParse nullMsg input = (none, none)) ∧
      (isBlank input = false → jsonParse input = Except.error msg →
        parseOutcome jsonParse nullMsg input = (none, some msg)) := by
  constructor
  · intro h
    simp [parseOutcome, h]
  · intro h hp
    simp [parseOutcome, h, hp]

/-- Witness for C6: whitespace-only text yields the idle pair, and a text
the parser throws on yields no schema and the thrown message. -/
theorem blank_or_unparseable_text_witness :
    parseOutcome (fun _ => Except.error "Unexpected token") "TypeError" "   "
        = (none, none) ∧
      parseOutcome (fun _ => Except.error "Unexpected token") "TypeError" "oops"
        = (none, some "Unexpected token") :=
  ⟨(blank_or_unparseable_text (fun _ => Except.error "Unexpected token") "TypeError"
      "   " "Unexpected token").1 (by decide),
   (blank_or_unparseable_text (fun _ => Except.error "Unexpected token") "TypeError"
      "oops" "Unexpected token").2 (by decide) rfl⟩

/-- C2 counterexample: the text `\x7b"formTitle": "", "fields": []\x7d` parses
to a structure that does have a title string member (the empty string) and a
fields array, yet the parser rejects it — `!parsed.formTitle` tests
truthiness, not presence — and the message it emits also differs from the
claim's quoted message. -/
theorem empty_title_counterexample :
    parseOutcome (fun _ => Except.ok (Json.obj [("formTitle", Json.str ""), ("fields", Json.arr [])]))
        "TypeError" "\x7b\"formTitle\": \"\", \"fields\": []\x7d"
      = (none, some invalidSchemaMsg) ∧
      invalidSchemaMsg ≠ "Invalid schema format. Must include a form title and fields array." := by
  constructor
  · rfl
  · decide

/-- C2 (amended): for non-blank text parsing to a non-null value, the
parser produces the parsed schema with the error cleared iff the value has
a truthy `formTitle` member and a `fields` member that is an array;
otherwise it produces no schema and exactly the message
`Invalid schema format. Must include "formTitle" and "fields" array.` -/
theorem parse_shape_gate (jsonParse : String → Except String Json)
    (nullMsg input : String) (j : Json)
    (hne : isBlank input = false) (hok : jsonParse input = Except.ok j)
    (hnn : j.isNull = false) :
    ((truthyOpt (j.getMember "formTitle") && isArrOpt (j.getMember "fields")) = true →
        parseOutcome jsonParse nullMsg input = (some j, none)) ∧
      ((truthyOpt (j.getMember "formTitle") && isArrOpt (j.getMember "fields")) = false →
        parseOutcome jsonParse nullMsg input = (none, some invalidSchemaMsg)) := by
  constructor
  · intro hshape
    simp [parseOutcome, hne, hok, hnn, hshape]
  · intro hshape
    simp [parseOutcome, hne, hok, hnn, hshape]

/-- Witness for C2: a document with truthy title and array fields is
accepted and stored, with the error cleared. -/
theorem parse_shape_gate_witness :
    parseOutcome (fun _ => Except.ok titledDoc) "TypeError" "x"
      = (some titledDoc, none) :=
  (parse_shape_gate (fun _ => Except.ok titledDoc) "TypeError" "x" titledDoc
    (by decide) rfl rfl).1 rfl

/-- C9: a successful parse of the editor text replaces the schema and
clears the schema error but leaves every other state cell — in particular
the field-value mapping and the field-error mapping, with all their old
entries — unchanged. -/
theorem schema_swap_frame (jsonParse : String → Except String Json)
    (cast : Json → FormSchema) (nullMsg : String) (st : ComponentState) (j : Json)
    (hok : parseOutcome jsonParse nullMsg st.jsonInput = (some j, none)) :
    (runParseEffect jsonParse cast nullMsg st).formData = st.formData ∧
      (runParseEffect jsonParse cast nullMsg st).formErrors = st.formErrors ∧
      (runParseEffect jsonParse cast nullMsg st).isSubmitted = st.isSubmitted ∧
      (runParseEffect jsonParse cast nullMsg st).isSubmitting = st.isSubmitting ∧
      (runParseEffect jsonParse cast nullMsg st).jsonInput = st.jsonInput ∧
      (runParseEffect jsonParse cast nullMsg st).formSchema = some (cast j) ∧
      (runParseEffect jsonParse cast nullMsg st).jsonError = none := by
  unfold runParseEffect
  rw [hok]
  exact ⟨rfl, rfl, rfl, rfl, rfl, rfl, rfl⟩

/-- Witness for C9: swapping in a freshly parsed schema over `swapState`
keeps the stale `("old", ...)` entries of both mappings. -/
theorem schema_swap_frame_witness :
    (runParseEffect (fun _ => Except.ok titledDoc) (fun _ => minLenSchema) "TypeError" swapState).formData = [("old", "v")] ∧
      (runParseEffect (fun _ => Except.ok titledDoc) (fun _ => minLenSchema) "TypeError" swapState).formErrors = [("old", "e")] ∧
      (runParseEffect (fun _ => Except.ok titledDoc) (fun _ => minLenSchema) "TypeError" swapState).isSubmitted = true ∧
      (runParseEffect (fun _ => Except.ok titledDoc) (fun _ => minLenSchema) "TypeError" swapState).isSubmitting = false ∧
      (runParseEffect (fun _ => Except.ok titledDoc) (fun _ => minLenSchema) "TypeError" swapState).jsonInput = "x" ∧
      (runParseEffect (fun _ => Except.ok titledDoc) (fun _ => minLenSchema) "TypeError" swapState).formSchema = some minLenSchema ∧
      (runParseEffect (fun _ => Except.ok titledDoc) (fun _ => minLenSchema) "TypeError" swapState).jsonError = none :=
  schema_swap_frame (fun _ => Except.ok titledDoc) (fun _ => minLenSchema) "TypeError"
    swapState titledDoc rfl

/-- C1 (code bug): on submit every field is re-validated, and the minLength
error for the too-short value "ab" is recorded for display — but the gate
that decides whether to proceed counts only required-empty errors, so the
submission is not aborted: the simulated wait runs, the collected values
are logged, and the submitted flag becomes true while the minLength error
is shown.  The specification instead requires any failing validation rule
to abort the submission with no wait and no log. -/
theorem minlength_violation_does_not_block_submit :
    handleSubmit (fun _ _ => true) minLenState =
      { state := { minLenState with formErrors := [("f", "Minimum length is 3")], isSubmitted := true, isSubmitting := false },
        waited := true, logged := some [("f", "ab")] } := by
  rfl
